import Mathlib

/-!
Shallow embedding of the token-lifecycle and authenticated-request layer of
the fhir-mcp repository.

The embedded code:
* `SmartAuth` (build/smart-auth.js): `exchangeCodeForToken`, `refreshToken`,
  `signIn`, `getAccessToken`, `saveToken`, `loadToken`, `clearToken`.
* `FhirClient` (fhir-client.js): `request` and `executeQuery`, including the
  fallback from the SmartAuth manager to the manually set `accessToken`.
* The second, bare gateway design (index.js): `makeAuthenticatedRequest` and
  `isTokenValid`.

Effects are made explicit: `Date.now()` is an `Int` parameter (epoch
milliseconds), each network interaction is an oracle value describing what
`fetch` produced (an exception, or a response with status / statusText /
parsed body), and the token file is a `FileState` value threaded through the
operations.  Every operation returns its result together with the
`currentToken` state, the file state, and the number of requests issued to
the token endpoint, so that refresh decisions are observable.
-/

/-- JavaScript truthiness of a possibly-absent string: `undefined` and the
empty string are falsy, every other string is truthy. -/
def jsStrTruthy : Option String → Bool
  | none => false
  | some s => !(s == "")

/-- JavaScript truthiness of a possibly-absent number: `undefined` and `0`
are falsy. -/
def jsIntTruthy : Option Int → Bool
  | none => false
  | some i => !(i == 0)

/-- JavaScript template interpolation of a possibly-undefined string, as in
the backquoted Authorization header value: `undefined` prints as the string
"undefined". -/
def jsTemplate : Option String → String
  | none => "undefined"
  | some s => s

/-- JavaScript `a || b` on possibly-absent strings. -/
def jsOrStr (a b : Option String) : Option String :=
  if jsStrTruthy a then a else b

/-- `response.ok` of the WHATWG fetch API: status in the range 200-299. -/
def respOk (s : Int) : Bool :=
  decide (200 ≤ s) && decide (s < 300)

/-- The TokenResponse shape of smart-auth.d.ts.  `access_token` is typed as
required in the interface, but the `signIn` normalization can produce
`undefined` for it, so it is embedded as an optional field; `token_type` is
kept required as declared.  `issued_at` is epoch milliseconds. -/
structure TokenResponse where
  access_token : Option String
  token_type : String
  expires_in : Option Int
  refresh_token : Option String
  scope : Option String
  patient : Option String
  id_token : Option String
  issued_at : Option Int
deriving DecidableEq, Repr

/-- State of the persisted token file `~/.fhir-mcp-tokens.json`: absent,
present but unreadable (read throws), present but not valid JSON (parse
throws), or a stored token record. -/
inductive FileState where
  | absent
  | unreadable
  | corrupt
  | stored (t : TokenResponse)
deriving DecidableEq, Repr

/-- The failures the SmartAuth operations throw, by source line:
`noToken` is "No token available. Please authenticate first.";
`noRefreshToken` is "No refresh token available";
`expiredNoRefresh` is "Token is expired and no refresh token is available";
the three parameterised failures carry the diagnostic fields the
corresponding `throw new Error` messages interpolate; `transport` is an
exception raised by `fetch` itself. -/
inductive AuthError where
  | noToken
  | noRefreshToken
  | expiredNoRefresh
  | tokenExchangeFailed (status : Int) (statusText : String)
  | tokenRefreshFailed (status : Int) (statusText : String)
  | authenticationFailed (status : Int) (statusText : String) (body : String)
  | transport (msg : String)
deriving DecidableEq, Repr

/-- Outcome of one `fetch` against the token endpoint: a network exception,
or a response with its status, statusText and JSON body parsed as a
`TokenResponse`. -/
inductive FetchResult where
  | exc (msg : String)
  | resp (status : Int) (statusText : String) (body : TokenResponse)
deriving DecidableEq, Repr

/-- Result of one SmartAuth operation: the value returned or error thrown,
the `currentToken` field afterwards, the token file afterwards, and how many
requests were issued to the token endpoint during the operation. -/
structure OpResult (α : Type) where
  result : Except AuthError α
  state : Option TokenResponse
  file : FileState
  tokenCalls : Nat

/-- The `issued_at` stamping at the top of `saveToken`: if the current
token has no (truthy) `issued_at`, set it to `Date.now()`. -/
def stampIssuedAt (t : TokenResponse) (now : Int) : TokenResponse :=
  if jsIntTruthy t.issued_at then t else { t with issued_at := some now }

/-- `saveToken`: when a token is present, stamp `issued_at` and write the
record; the write is wrapped in try/catch, so on a failing write (`writeOk =
false`) the file keeps its previous state and no error escapes.  Returns the
in-memory token (stamping mutates it in place in the source) and the file. -/
def saveTokenOp (st : Option TokenResponse) (file : FileState) (now : Int)
    (writeOk : Bool) : Option TokenResponse × FileState :=
  match st with
  | none => (none, file)
  | some t =>
    let t2 := stampIssuedAt t now
    (some t2, if writeOk then FileState.stored t2 else file)

/-- `loadToken`, run once at construction: an absent file leaves the initial
`null`; an unreadable or unparsable file lands in the catch block, which
sets `currentToken = null`; a stored record is parsed back.  Total: never a
startup failure. -/
def loadTokenFrom : FileState → Option TokenResponse
  | FileState.absent => none
  | FileState.unreadable => none
  | FileState.corrupt => none
  | FileState.stored t => some t

/-- `refreshToken(refreshToken?)`: resolve the token to use as the argument
if truthy, else `currentToken?.refresh_token`; with no truthy token, throw
"No refresh token available" without touching the network.  Otherwise POST
to the token endpoint: a non-ok response throws with status and statusText,
a network exception propagates; on success the body becomes `currentToken`
and is saved (which stamps `issued_at`), and the stamped record is
returned. -/
def refreshTokenOp (st : Option TokenResponse) (file : FileState)
    (arg : Option String) (fetch : FetchResult) (now : Int) (writeOk : Bool) :
    OpResult TokenResponse :=
  let tokenToUse := if jsStrTruthy arg then arg
    else st.bind TokenResponse.refresh_token
  if jsStrTruthy tokenToUse = false then
    ⟨Except.error AuthError.noRefreshToken, st, file, 0⟩
  else
    match fetch with
    | FetchResult.exc m => ⟨Except.error (AuthError.transport m), st, file, 1⟩
    | FetchResult.resp status statusText body =>
      if respOk status = false then
        ⟨Except.error (AuthError.tokenRefreshFailed status statusText), st, file, 1⟩
      else
        let saved := saveTokenOp (some body) file now writeOk
        ⟨Except.ok (stampIssuedAt body now), saved.1, saved.2, 1⟩

/-- `getAccessToken()`: throw "No token available" when `currentToken` is
null.  Compute `expiresAt` as `(issued_at || Date.now()) + expires_in *
1000` when `expires_in` is truthy, else null.  When `expiresAt` is truthy
(non-null and nonzero, per the `expiresAt &&` guard) and `Date.now() >
expiresAt - 5*60*1000`: refresh through
`refreshToken(currentToken.refresh_token)` if a refresh token is present
(propagating its failure), else throw "Token is expired and no refresh
token is available".  Finally return `currentToken.access_token` (the
refreshed token's after a refresh). -/
def getAccessTokenOp (st : Option TokenResponse) (file : FileState)
    (fetch : FetchResult) (now : Int) (writeOk : Bool) :
    OpResult (Option String) :=
  match st with
  | none => ⟨Except.error AuthError.noToken, none, file, 0⟩
  | some t =>
    let expiresAt : Option Int :=
      if jsIntTruthy t.expires_in then
        some ((if jsIntTruthy t.issued_at then t.issued_at.getD 0 else now)
          + t.expires_in.getD 0 * 1000)
      else none
    if jsIntTruthy expiresAt = true ∧ now > expiresAt.getD 0 - 5 * 60 * 1000 then
      if jsStrTruthy t.refresh_token then
        let r := refreshTokenOp (some t) file t.refresh_token fetch now writeOk
        match r.result with
        | Except.error e => ⟨Except.error e, r.state, r.file, r.tokenCalls⟩
        | Except.ok _ =>
          ⟨Except.ok (r.state.bind TokenResponse.access_token),
            r.state, r.file, r.tokenCalls⟩
      else ⟨Except.error AuthError.expiredNoRefresh, some t, file, 0⟩
    else ⟨Except.ok t.access_token, some t, file, 0⟩

/-- `exchangeCodeForToken(code)`: POST the form-encoded grant to the token
endpoint (the `code` argument only shapes that body, so it is not a
parameter here).  A non-ok response throws "Token exchange failed" with
status and statusText before any state change; on success the body becomes
`currentToken` and is saved (stamping `issued_at`). -/
def exchangeCodeForTokenOp (st : Option TokenResponse) (file : FileState)
    (fetch : FetchResult) (now : Int) (writeOk : Bool) :
    OpResult TokenResponse :=
  match fetch with
  | FetchResult.exc m => ⟨Except.error (AuthError.transport m), st, file, 1⟩
  | FetchResult.resp status statusText body =>
    if respOk status = false then
      ⟨Except.error (AuthError.tokenExchangeFailed status statusText), st, file, 1⟩
    else
      let saved := saveTokenOp (some body) file now writeOk
      ⟨Except.ok (stampIssuedAt body now), saved.1, saved.2, 1⟩

/-- The vendor sign-in response shape `signIn` adapts: Fasten may return
`token` or `access_token`, and the remaining fields are optional. -/
structure VendorSignInResponse where
  token : Option String
  access_token : Option String
  token_type : Option String
  expires_in : Option Int
  refresh_token : Option String
deriving DecidableEq, Repr

/-- Outcome of one `fetch` against the vendor sign-in endpoint: a network
exception, or a response with status, statusText, body text (read on the
error path) and the JSON body parsed as a `VendorSignInResponse`. -/
inductive SignInFetch where
  | exc (msg : String)
  | resp (status : Int) (statusText : String) (bodyText : String)
      (body : VendorSignInResponse)
deriving DecidableEq, Repr

/-- The adaptation `signIn` performs on the vendor response, field by field
from the source: `access_token` is `responseData.token ||
responseData.access_token`, `token_type` is `responseData.token_type ||
'Bearer'`, `expires_in` is `responseData.expires_in || 3600`,
`refresh_token` is passed through, `issued_at` is `Date.now()`. -/
def normalizeSignIn (r : VendorSignInResponse) (now : Int) : TokenResponse :=
  { access_token := jsOrStr r.token r.access_token
    token_type := (jsOrStr r.token_type (some "Bearer")).getD "Bearer"
    expires_in := some (if jsIntTruthy r.expires_in then r.expires_in.getD 0 else 3600)
    refresh_token := r.refresh_token
    scope := none
    patient := none
    id_token := none
    issued_at := some now }

/-- Modelled from the claim's words, for comparison with `normalizeSignIn`:
the access token is taken from `token` or else (i.e. when `token` is
absent) from `access_token`; the token kind defaults to Bearer when
`token_type` is absent; the expiry defaults to 3600 seconds when
`expires_in` is absent; the refresh token is preserved; issuance is stamped
as now. -/
def normalizeSignInSpec (r : VendorSignInResponse) (now : Int) : TokenResponse :=
  { access_token := match r.token with
      | some t => some t
      | none => r.access_token
    token_type := r.token_type.getD "Bearer"
    expires_in := some (r.expires_in.getD 3600)
    refresh_token := r.refresh_token
    scope := none
    patient := none
    id_token := none
    issued_at := some now }

/-- `signIn(username, password)`: POST the JSON credentials to the vendor
sign-in endpoint (the credentials only shape that body).  A non-ok response
reads the body text and throws "Authentication failed" carrying status,
statusText and that text, before any state change; on success the adapted
response becomes `currentToken` and is saved.  No request goes to the token
endpoint. -/
def signInOp (st : Option TokenResponse) (file : FileState)
    (fetch : SignInFetch) (now : Int) (writeOk : Bool) :
    OpResult TokenResponse :=
  match fetch with
  | SignInFetch.exc m => ⟨Except.error (AuthError.transport m), st, file, 0⟩
  | SignInFetch.resp status statusText bodyText body =>
    if respOk status = false then
      ⟨Except.error (AuthError.authenticationFailed status statusText bodyText),
        st, file, 0⟩
    else
      let t := normalizeSignIn body now
      let saved := saveTokenOp (some t) file now writeOk
      ⟨Except.ok (stampIssuedAt t now), saved.1, saved.2, 0⟩

/-! ### FhirClient (fhir-client.js) -/

/-- Outcome of `await this.smartAuth.getAccessToken()` as seen inside the
FhirClient try block: the promise resolved with a (possibly undefined)
string, or it rejected with one of the SmartAuth failures. -/
inductive ReadOutcome where
  | ok (tok : Option String)
  | err (e : AuthError)
deriving DecidableEq, Repr

/-- The failures FhirClient throws: `noAccessToken` is "No access token
available. Please authenticate first."; `requestFailed` is "FHIR request
failed" with status and statusText; `queryFailed` is "Query execution
failed" with status, statusText and the response body text; `transport` is
an exception out of `fetch` itself. -/
inductive FhirError where
  | noAccessToken
  | requestFailed (status : Int) (statusText : String)
  | queryFailed (status : Int) (statusText : String) (body : String)
  | transport (msg : String)
deriving DecidableEq, Repr

/-- What a FhirClient method has decided just before its `fetch`: the
Authorization header value it will send (none means no such header), or an
error thrown instead of calling `fetch` at all (`abortError`, in which case
no HTTP request happens). -/
structure CallPrep where
  authHeader : Option String
  abortError : Option FhirError
deriving DecidableEq, Repr

/-- The header phase of `FhirClient.request`: with a SmartAuth manager
attached, a resolved `getAccessToken` supplies the Authorization header
(regardless of any manually set token); a rejected one is caught and the
manual token used if truthy, else only a warning is logged; without a
manager the manual token is used if truthy.  In every case the method goes
on to call `fetch` — there is no pre-request token guard, so `abortError`
is always none. -/
def requestPrep (manager : Option ReadOutcome) (manual : Option String) :
    CallPrep :=
  match manager with
  | some (ReadOutcome.ok tok) => ⟨some ("Bearer " ++ jsTemplate tok), none⟩
  | some (ReadOutcome.err _) =>
    if jsStrTruthy manual then ⟨some ("Bearer " ++ manual.getD ""), none⟩
    else ⟨none, none⟩
  | none =>
    if jsStrTruthy manual then ⟨some ("Bearer " ++ manual.getD ""), none⟩
    else ⟨none, none⟩

/-- The `token` local of `FhirClient.executeQuery` after its resolution
chain: the manager's resolved token; on a caught manager failure, the
manual token if truthy; without a manager, the manual token if truthy. -/
def executeQueryToken (manager : Option ReadOutcome) (manual : Option String) :
    Option String :=
  match manager with
  | some (ReadOutcome.ok tok) => tok
  | some (ReadOutcome.err _) => if jsStrTruthy manual then manual else none
  | none => if jsStrTruthy manual then manual else none

/-- The pre-fetch phase of `FhirClient.executeQuery`: resolve `token`, then
`if (!token) throw` the no-access-token error — no HTTP call in that case;
otherwise the query POST carries `Authorization: Bearer token`. -/
def executeQueryPrep (manager : Option ReadOutcome) (manual : Option String) :
    CallPrep :=
  let token := executeQueryToken manager manual
  if jsStrTruthy token then ⟨some ("Bearer " ++ token.getD ""), none⟩
  else ⟨none, some FhirError.noAccessToken⟩

/-- Outcome of one `fetch` against the upstream API, as the response
classifiers see it: a network exception, or a status with statusText. -/
inductive HttpOutcome where
  | exc (msg : String)
  | status (s : Int) (statusText : String)
deriving DecidableEq, Repr

/-- The response classification of `FhirClient.request`: any non-ok status
throws "FHIR request failed" with status and statusText — HTTP 401 is not
distinguished and no credential state is touched; an ok response is parsed
and returned. -/
def requestClassify (http : HttpOutcome) : Except FhirError Unit :=
  match http with
  | HttpOutcome.exc m => Except.error (FhirError.transport m)
  | HttpOutcome.status s statusText =>
    if respOk s then Except.ok ()
    else Except.error (FhirError.requestFailed s statusText)

/-- One whole `FhirClient.request` call against an attached SmartAuth
manager: the thrown error or success, the manager's `currentToken` and file
afterwards, and the Authorization header that was sent. -/
structure FhirRequestResult where
  result : Except FhirError Unit
  managerState : Option TokenResponse
  file : FileState
  authHeader : Option String
deriving Repr

/-- `FhirClient.request` with a SmartAuth manager attached, end to end:
run `getAccessToken` (which may refresh, consuming `refreshFetch`); on its
success attach its token, on its failure fall back to the manual token if
truthy (the failure itself is swallowed); then issue the request and
classify the response.  The response classification never modifies the
manager's state — in particular HTTP 401 leaves `currentToken` as the
token read left it. -/
def fhirRequestOp (st : Option TokenResponse) (file : FileState)
    (manual : Option String) (refreshFetch : FetchResult) (now : Int)
    (writeOk : Bool) (http : HttpOutcome) : FhirRequestResult :=
  let g := getAccessTokenOp st file refreshFetch now writeOk
  match g.result with
  | Except.ok tok =>
    ⟨requestClassify http, g.state, g.file, some ("Bearer " ++ jsTemplate tok)⟩
  | Except.error _ =>
    let header := if jsStrTruthy manual then some ("Bearer " ++ manual.getD "")
      else none
    ⟨requestClassify http, g.state, g.file, header⟩

/-! ### The bare gateway design (index.js) -/

/-- The failures of the index.js gateway: `noAuthToken` is "No
authentication token available. Please set a token using the
'set-auth-token' tool."; `authExpired` is "Authentication token is invalid
or has expired. Please provide a new token."; `requestFailed` is "API
request failed with status" carrying the status; `transport` is a `fetch`
exception rethrown by the catch block. -/
inductive GatewayError where
  | noAuthToken
  | authExpired
  | requestFailed (status : Int)
  | transport (msg : String)
deriving DecidableEq, Repr

/-- `makeAuthenticatedRequest(endpoint, method, body)` of index.js over the
module-level `authToken`: a falsy token throws the no-token error before
any fetch; a 401 response sets `authToken = null` and throws the
distinguished expired error; any other non-ok status throws the generic
request failure, leaving the token in place; an ok response succeeds.
Returns the result together with `authToken` afterwards. -/
def makeAuthenticatedRequest (authToken : Option String) (http : HttpOutcome) :
    Except GatewayError Unit × Option String :=
  if jsStrTruthy authToken = false then
    (Except.error GatewayError.noAuthToken, authToken)
  else
    match http with
    | HttpOutcome.exc m => (Except.error (GatewayError.transport m), authToken)
    | HttpOutcome.status s _ =>
      if respOk s then (Except.ok (), authToken)
      else if s == 401 then (Except.error GatewayError.authExpired, none)
      else (Except.error (GatewayError.requestFailed s), authToken)

/-- `isTokenValid(token)` of index.js: probe GET against /secure/summary;
an exception is caught and yields false; otherwise the result is
`response.status === 200`. -/
def isTokenValid (probe : HttpOutcome) : Bool :=
  match probe with
  | HttpOutcome.exc _ => false
  | HttpOutcome.status s _ => s == 200

/-! ### Helper lemmas -/

/-- Stamping the issuance time never changes the access token. -/
theorem stampIssuedAt_access_token (t : TokenResponse) (now : Int) :
    (stampIssuedAt t now).access_token = t.access_token := by
  unfold stampIssuedAt
  split <;> rfl

/-- The sign-in normalization already stamps issuance as now, so the
stamping inside `saveToken` leaves it unchanged. -/
theorem stampIssuedAt_normalizeSignIn (r : VendorSignInResponse) (now : Int) :
    stampIssuedAt (normalizeSignIn r now) now = normalizeSignIn r now := by
  by_cases h : now = 0
  · subst h
    simp [stampIssuedAt, normalizeSignIn, jsIntTruthy]
  · simp [stampIssuedAt, normalizeSignIn, jsIntTruthy, h]

/-! ### Claims -/

/-- Claim C1, counterexample: with a SmartAuth manager attached whose token
read fails (here with the no-token failure) and a manually set fallback
token "M", `executeQuery` does not propagate the failure and does attempt
the HTTP call, attaching the fallback token — contradicting "that failure is
propagated to the caller and no HTTP call is attempted". -/
theorem C1_counterexample :
    executeQueryPrep (some (ReadOutcome.err AuthError.noToken)) (some "M")
      = ⟨some ("Bearer " ++ "M"), none⟩ := by
  decide

/-- Claim C1 as amended: when the token read of the attached manager fails,
the FhirClient swallows the failure. `request` always proceeds to the HTTP
call, with the manually set token as Authorization header when one is truthy
and with no Authorization header otherwise; `executeQuery` proceeds with the
manual token when one is truthy and otherwise throws its own no-access-token
error without an HTTP call. -/
theorem C1_manager_failure_fallback (e : AuthError) (manual : Option String) :
    requestPrep (some (ReadOutcome.err e)) manual
      = ⟨if jsStrTruthy manual then some ("Bearer " ++ manual.getD "") else none,
          none⟩
    ∧ executeQueryPrep (some (ReadOutcome.err e)) manual
      = if jsStrTruthy manual then ⟨some ("Bearer " ++ manual.getD ""), none⟩
        else ⟨none, some FhirError.noAccessToken⟩ := by
  constructor
  · simp only [requestPrep]
    split <;> simp_all
  · simp only [executeQueryPrep, executeQueryToken]
    split <;> simp_all [jsStrTruthy]

/-- Claim C4: a refresh with no refresh token available from any source
(argument absent, and either no live credential or a live credential without
a refresh token) fails with the no-refresh-token error, sends nothing to the
token endpoint, and leaves all state unchanged. -/
theorem C4_no_refresh_token (st : Option TokenResponse) (file : FileState)
    (fetch : FetchResult) (now : Int) (writeOk : Bool)
    (h : st = none ∨ ∃ t, st = some t ∧ t.refresh_token = none) :
    refreshTokenOp st file none fetch now writeOk
      = ⟨Except.error AuthError.noRefreshToken, st, file, 0⟩ := by
  have hbind : st.bind TokenResponse.refresh_token = none := by
    rcases h with h | ⟨t, ht, htr⟩
    · simp [h]
    · simp [ht, htr]
  simp [refreshTokenOp, jsStrTruthy, hbind]

/-- Claim C4, witness: refresh with no argument and no live credential. -/
theorem C4_witness :
    refreshTokenOp none FileState.absent none (FetchResult.exc "down") 0 true
      = ⟨Except.error AuthError.noRefreshToken, none, FileState.absent, 0⟩ :=
  C4_no_refresh_token none FileState.absent (FetchResult.exc "down") 0 true
    (Or.inl rfl)

/-- Claim C5: an authorization-code exchange answered with a non-success
HTTP status fails with the token-exchange failure carrying that status and
statusText, and both the live credential and the persisted record are
exactly what they were before the call. -/
theorem C5_exchange_failure_state_unchanged (st : Option TokenResponse)
    (file : FileState) (status : Int) (stx : String) (body : TokenResponse)
    (now : Int) (writeOk : Bool) (h : respOk status = false) :
    exchangeCodeForTokenOp st file (FetchResult.resp status stx body) now writeOk
      = ⟨Except.error (AuthError.tokenExchangeFailed status stx), st, file, 1⟩ := by
  simp [exchangeCodeForTokenOp, h]

/-- Claim C5, witness: exchange against a token endpoint returning 400,
starting from a live credential and a stored record. -/
theorem C5_witness :
    exchangeCodeForTokenOp
        (some ⟨some "OLD", "Bearer", none, none, none, none, none, some 3⟩)
        (FileState.stored ⟨some "OLD", "Bearer", none, none, none, none, none, some 3⟩)
        (FetchResult.resp 400 "Bad Request"
          ⟨none, "Bearer", none, none, none, none, none, none⟩) 9 true
      = ⟨Except.error (AuthError.tokenExchangeFailed 400 "Bad Request"),
          some ⟨some "OLD", "Bearer", none, none, none, none, none, some 3⟩,
          FileState.stored ⟨some "OLD", "Bearer", none, none, none, none, none, some 3⟩,
          1⟩ :=
  C5_exchange_failure_state_unchanged
    (some ⟨some "OLD", "Bearer", none, none, none, none, none, some 3⟩)
    (FileState.stored ⟨some "OLD", "Bearer", none, none, none, none, none, some 3⟩)
    400 "Bad Request" ⟨none, "Bearer", none, none, none, none, none, none⟩ 9 true
    (by decide)

/-- Claim C7, counterexample: a probe that completes without exception with
HTTP status 500 — not a 401 — is reported invalid by the code, contradicting
"returns true ... without a 401 status (non-exception/non-401 is treated as
valid)". -/
theorem C7_counterexample :
    isTokenValid (HttpOutcome.status 500 "Internal Server Error") = false
    ∧ (500 : Int) ≠ 401 := by
  decide

/-- Claim C7 as amended: the probe-based validity check returns true exactly
when the probe request completes without exception with HTTP status 200; an
exception yields false. -/
theorem C7_probe_valid_iff_200 (s : Int) (stx m : String) :
    (isTokenValid (HttpOutcome.status s stx) = true ↔ s = 200)
    ∧ isTokenValid (HttpOutcome.exc m) = false := by
  constructor
  · simp [isTokenValid]
  · rfl

/-- Claim C10: when the token read of the attached manager succeeds with a
token, both `request` and `executeQuery` attach that token as the
Authorization header regardless of any manually set token; the manual token
is consulted only when no manager is attached or the read of the manager
fails (and then only if truthy). -/
theorem C10_manager_token_wins (tok : String) (htok : tok ≠ "")
    (manual : Option String) (e : AuthError) :
    (requestPrep (some (ReadOutcome.ok (some tok))) manual).authHeader
      = some ("Bearer " ++ tok)
    ∧ executeQueryPrep (some (ReadOutcome.ok (some tok))) manual
      = ⟨some ("Bearer " ++ tok), none⟩
    ∧ requestPrep (some (ReadOutcome.err e)) manual
      = ⟨if jsStrTruthy manual then some ("Bearer " ++ manual.getD "") else none,
          none⟩
    ∧ requestPrep none manual
      = ⟨if jsStrTruthy manual then some ("Bearer " ++ manual.getD "") else none,
          none⟩
    ∧ executeQueryToken (some (ReadOutcome.err e)) manual
      = (if jsStrTruthy manual then manual else none)
    ∧ executeQueryToken none manual
      = (if jsStrTruthy manual then manual else none) := by
  refine ⟨rfl, ?_, ?_, ?_, rfl, rfl⟩
  · simp [executeQueryPrep, executeQueryToken, jsStrTruthy, htok]
  · simp only [requestPrep]
    split <;> simp_all
  · simp only [requestPrep]
    split <;> simp_all

/-- Claim C10, witness: the manager token "T" wins over the manually set
token "M". -/
theorem C10_witness :
    (requestPrep (some (ReadOutcome.ok (some "T"))) (some "M")).authHeader
      = some ("Bearer " ++ "T")
    ∧ executeQueryPrep (some (ReadOutcome.ok (some "T"))) (some "M")
      = ⟨some ("Bearer " ++ "T"), none⟩ :=
  ⟨(C10_manager_token_wins "T" (by decide) (some "M") AuthError.noToken).1,
   (C10_manager_token_wins "T" (by decide) (some "M") AuthError.noToken).2.1⟩

/-- Claim C2 as amended: for every live credential with positive
`expires_in` and `issued_at` and a non-empty refresh token, a token read at
`issued_at + expires_in * 1000 - 5*60*1000 - 1` returns the original access
token with no token-endpoint call and no state change, while a read at
`issued_at + expires_in * 1000 - 5*60*1000 + 1` issues exactly one
token-endpoint call: returning the refreshed access token when the refresh
succeeds, and propagating the refresh failure (HTTP rejection or network
exception) otherwise. -/
theorem C2_refresh_window (t : TokenResponse) (e i : Int) (r : String)
    (he : t.expires_in = some e) (he0 : 0 < e)
    (hi : t.issued_at = some i) (hi0 : 0 < i)
    (hr : t.refresh_token = some r) (hr0 : r ≠ "")
    (fetch : FetchResult) (file : FileState) (writeOk : Bool) :
    getAccessTokenOp (some t) file fetch (i + e * 1000 - 5 * 60 * 1000 - 1) writeOk
      = ⟨Except.ok t.access_token, some t, file, 0⟩
    ∧ (getAccessTokenOp (some t) file fetch (i + e * 1000 - 5 * 60 * 1000 + 1)
        writeOk).tokenCalls = 1
    ∧ (∀ s stx b, fetch = FetchResult.resp s stx b → respOk s = true →
        (getAccessTokenOp (some t) file fetch (i + e * 1000 - 5 * 60 * 1000 + 1)
          writeOk).result = Except.ok b.access_token)
    ∧ (∀ s stx b, fetch = FetchResult.resp s stx b → respOk s = false →
        (getAccessTokenOp (some t) file fetch (i + e * 1000 - 5 * 60 * 1000 + 1)
          writeOk).result = Except.error (AuthError.tokenRefreshFailed s stx))
    ∧ (∀ m, fetch = FetchResult.exc m →
        (getAccessTokenOp (some t) file fetch (i + e * 1000 - 5 * 60 * 1000 + 1)
          writeOk).result = Except.error (AuthError.transport m)) := by
  have he1 : e ≠ 0 := by omega
  have hi1 : i ≠ 0 := by omega
  have hea : i + e * 1000 ≠ 0 := by omega
  have hcmp1 : ¬(i + e * 1000 - 5 * 60 * 1000 - 1 > i + e * 1000 - 5 * 60 * 1000) := by
    omega
  have hcmp2 : i + e * 1000 - 5 * 60 * 1000 + 1 > i + e * 1000 - 5 * 60 * 1000 := by
    omega
  refine ⟨?_, ?_, ?_, ?_, ?_⟩
  · simp [getAccessTokenOp, jsIntTruthy, he, hi, he1, hi1, hea, hcmp1]
  · cases fetch with
    | exc m =>
      simp [getAccessTokenOp, refreshTokenOp, jsIntTruthy, jsStrTruthy, he, hi, hr,
        he1, hi1, hea, hr0, hcmp2]
    | resp s stx b =>
      by_cases hok : respOk s = true
      · simp [getAccessTokenOp, refreshTokenOp, saveTokenOp, jsIntTruthy, jsStrTruthy,
          he, hi, hr, he1, hi1, hea, hr0, hcmp2, hok]
      · simp [getAccessTokenOp, refreshTokenOp, jsIntTruthy, jsStrTruthy,
          he, hi, hr, he1, hi1, hea, hr0, hcmp2, hok]
  · intro s stx b hf hok
    subst hf
    simp [getAccessTokenOp, refreshTokenOp, saveTokenOp, jsIntTruthy, jsStrTruthy,
      he, hi, hr, he1, hi1, hea, hr0, hcmp2, hok, stampIssuedAt_access_token]
  · intro s stx b hf hok
    subst hf
    simp [getAccessTokenOp, refreshTokenOp, jsIntTruthy, jsStrTruthy,
      he, hi, hr, he1, hi1, hea, hr0, hcmp2, hok]
  · intro m hf
    subst hf
    simp [getAccessTokenOp, refreshTokenOp, jsIntTruthy, jsStrTruthy,
      he, hi, hr, he1, hi1, hea, hr0, hcmp2]

/-- Claim C2, counterexample: a live credential with `expires_in` and
`issued_at` set but no refresh token, read 1ms past the refresh threshold
with a token endpoint that would answer successfully: the read fails with
the expired-no-refresh error and makes zero token-endpoint calls, instead of
triggering exactly one refresh call before returning. -/
theorem C2_counterexample :
    getAccessTokenOp
        (some ⟨some "T", "Bearer", some 3600, none, none, none, none, some 1000000⟩)
        FileState.absent
        (FetchResult.resp 200 "OK"
          ⟨some "N", "Bearer", some 3600, some "R2", none, none, none, none⟩)
        (1000000 + 3600 * 1000 - 5 * 60 * 1000 + 1) true
      = ⟨Except.error AuthError.expiredNoRefresh,
          some ⟨some "T", "Bearer", some 3600, none, none, none, none, some 1000000⟩,
          FileState.absent, 0⟩ := by
  rfl

/-- Claim C2, witness: a concrete credential issued at 1000000 with one hour
expiry and refresh token "R": the read 1ms before the threshold returns "T"
unrefreshed, and the read 1ms past the threshold makes exactly one
token-endpoint call. -/
theorem C2_witness :
    getAccessTokenOp
        (some ⟨some "T", "Bearer", some 3600, some "R", none, none, none, some 1000000⟩)
        FileState.absent
        (FetchResult.resp 200 "OK"
          ⟨some "N", "Bearer", some 3600, some "R2", none, none, none, none⟩)
        ((1000000 : Int) + 3600 * 1000 - 5 * 60 * 1000 - 1) true
      = ⟨Except.ok (some "T"),
          some ⟨some "T", "Bearer", some 3600, some "R", none, none, none, some 1000000⟩,
          FileState.absent, 0⟩
    ∧ (getAccessTokenOp
        (some ⟨some "T", "Bearer", some 3600, some "R", none, none, none, some 1000000⟩)
        FileState.absent
        (FetchResult.resp 200 "OK"
          ⟨some "N", "Bearer", some 3600, some "R2", none, none, none, none⟩)
        ((1000000 : Int) + 3600 * 1000 - 5 * 60 * 1000 + 1) true).tokenCalls = 1 :=
  ⟨(C2_refresh_window
      ⟨some "T", "Bearer", some 3600, some "R", none, none, none, some 1000000⟩
      3600 1000000 "R" rfl (by decide) rfl (by decide) rfl (by decide)
      (FetchResult.resp 200 "OK"
        ⟨some "N", "Bearer", some 3600, some "R2", none, none, none, none⟩)
      FileState.absent true).1,
   (C2_refresh_window
      ⟨some "T", "Bearer", some 3600, some "R", none, none, none, some 1000000⟩
      3600 1000000 "R" rfl (by decide) rfl (by decide) rfl (by decide)
      (FetchResult.resp 200 "OK"
        ⟨some "N", "Bearer", some 3600, some "R2", none, none, none, none⟩)
      FileState.absent true).2.1⟩

/-- Claim C3 as amended: for upstream calls made through the index.js
gateway `makeAuthenticatedRequest`, an HTTP 401 clears the live token and
fails with the distinguished expired failure — a failure distinct from the
generic request failure every other non-2xx status produces (which leaves
the token in place) — and any subsequent call without re-authentication
fails with the no-token failure.  (`FhirClient.request`, the other cited
call path, does not behave this way: see the counterexample.) -/
theorem C3_gateway_401 (tok : String) (htok : tok ≠ "") (stx : String) :
    makeAuthenticatedRequest (some tok) (HttpOutcome.status 401 stx)
      = (Except.error GatewayError.authExpired, none)
    ∧ (∀ s stx2, respOk s = false → s ≠ 401 →
        makeAuthenticatedRequest (some tok) (HttpOutcome.status s stx2)
          = (Except.error (GatewayError.requestFailed s), some tok))
    ∧ (∀ http, makeAuthenticatedRequest none http
        = (Except.error GatewayError.noAuthToken, none))
    ∧ (∀ s, GatewayError.authExpired ≠ GatewayError.requestFailed s) := by
  have h1 : jsStrTruthy (some tok) = true := by simp [jsStrTruthy, htok]
  refine ⟨?_, ?_, ?_, ?_⟩
  · simp [makeAuthenticatedRequest, h1, respOk]
  · intro s stx2 hok h401
    simp [makeAuthenticatedRequest, h1, hok, h401]
  · intro http
    simp [makeAuthenticatedRequest, jsStrTruthy]
  · intro s
    simp

/-- Claim C3, witness: a 401 on a call carrying token "T" clears the token
and yields the distinguished expired failure. -/
theorem C3_witness :
    makeAuthenticatedRequest (some "T") (HttpOutcome.status 401 "Unauthorized")
      = (Except.error GatewayError.authExpired, none) :=
  (C3_gateway_401 "T" (by decide) "Unauthorized").1

/-- Claim C3, counterexample: `FhirClient.request` — also an upstream call
through the authenticated-request layer, per the cited sources — answers an
HTTP 401 with the generic request failure, does not clear the live
credential of its manager, and a subsequent token read still succeeds with
the same token rather than failing with the no-credential error. -/
theorem C3_counterexample :
    (fhirRequestOp (some ⟨some "T", "Bearer", none, none, none, none, none, some 1⟩)
        FileState.absent none (FetchResult.exc "unused") 1000 true
        (HttpOutcome.status 401 "Unauthorized")).result
      = Except.error (FhirError.requestFailed 401 "Unauthorized")
    ∧ (fhirRequestOp (some ⟨some "T", "Bearer", none, none, none, none, none, some 1⟩)
        FileState.absent none (FetchResult.exc "unused") 1000 true
        (HttpOutcome.status 401 "Unauthorized")).managerState
      = some ⟨some "T", "Bearer", none, none, none, none, none, some 1⟩
    ∧ (getAccessTokenOp
        (some ⟨some "T", "Bearer", none, none, none, none, none, some 1⟩)
        FileState.absent (FetchResult.exc "unused") 2000 true).result
      = Except.ok (some "T") :=
  ⟨rfl, rfl, rfl⟩

/-- Claim C6, counterexample: a vendor response carrying `token` present but
empty alongside `access_token` "A".  The claimed rule — access token taken
from `token` or else `access_token` — yields the empty token, but the code
falls through to "A" because the fallback follows JavaScript truthiness, not
absence. -/
theorem C6_counterexample :
    normalizeSignIn ⟨some "", some "A", none, none, none⟩ 5
      ≠ normalizeSignInSpec ⟨some "", some "A", none, none, none⟩ 5
    ∧ (normalizeSignIn ⟨some "", some "A", none, none, none⟩ 5).access_token
      = some "A"
    ∧ (normalizeSignInSpec ⟨some "", some "A", none, none, none⟩ 5).access_token
      = some "" := by
  decide

/-- Claim C6 as amended: sign-in normalizes the vendor response with
JavaScript-truthiness fallbacks — access token from `token` when present
and non-empty, else from `access_token`; token kind from `token_type` when
present and non-empty, else Bearer; expiry from `expires_in` when present
and nonzero, else 3600 seconds; refresh token preserved as is; issuance
stamped as now — and every non-success HTTP response fails with the
authentication failure carrying status, statusText and body text, leaving
all state unchanged; on success the normalized credential becomes the live
credential and is returned. -/
theorem C6_signin_normalization (st : Option TokenResponse) (file : FileState)
    (status : Int) (stx btxt : String) (body : VendorSignInResponse)
    (now : Int) (writeOk : Bool) :
    (respOk status = false →
      signInOp st file (SignInFetch.resp status stx btxt body) now writeOk
        = ⟨Except.error (AuthError.authenticationFailed status stx btxt),
            st, file, 0⟩)
    ∧ (respOk status = true →
      (signInOp st file (SignInFetch.resp status stx btxt body) now writeOk).result
        = Except.ok (normalizeSignIn body now)
      ∧ (signInOp st file (SignInFetch.resp status stx btxt body) now writeOk).state
        = some (normalizeSignIn body now))
    ∧ (∀ tk, body.token = some tk → tk ≠ "" →
        (normalizeSignIn body now).access_token = some tk)
    ∧ (body.token = none →
        (normalizeSignIn body now).access_token = body.access_token)
    ∧ (body.token_type = none → (normalizeSignIn body now).token_type = "Bearer")
    ∧ (∀ tt, body.token_type = some tt → tt ≠ "" →
        (normalizeSignIn body now).token_type = tt)
    ∧ (body.expires_in = none → (normalizeSignIn body now).expires_in = some 3600)
    ∧ (∀ x, body.expires_in = some x → x ≠ 0 →
        (normalizeSignIn body now).expires_in = some x)
    ∧ (normalizeSignIn body now).refresh_token = body.refresh_token
    ∧ (normalizeSignIn body now).issued_at = some now := by
  refine ⟨?_, ?_, ?_, ?_, ?_, ?_, ?_, ?_, rfl, rfl⟩
  · intro h
    simp [signInOp, h]
  · intro h
    constructor
    · simp [signInOp, h, saveTokenOp, stampIssuedAt_normalizeSignIn]
    · simp [signInOp, h, saveTokenOp, stampIssuedAt_normalizeSignIn]
  · intro tk htk htk0
    simp [normalizeSignIn, jsOrStr, jsStrTruthy, htk, htk0]
  · intro h
    simp [normalizeSignIn, jsOrStr, jsStrTruthy, h]
  · intro h
    simp [normalizeSignIn, jsOrStr, jsStrTruthy, h]
  · intro tt htt htt0
    simp [normalizeSignIn, jsOrStr, jsStrTruthy, htt, htt0]
  · intro h
    simp [normalizeSignIn, jsIntTruthy, h]
  · intro x hx hx0
    simp [normalizeSignIn, jsIntTruthy, hx, hx0]

/-- Claim C6, witness: a successful sign-in answered with token "T1" and
expiry 3600 stores and returns the normalized credential, whose access token
is "T1". -/
theorem C6_witness :
    (signInOp none FileState.absent
        (SignInFetch.resp 200 "OK" ""
          ⟨some "T1", none, none, some 3600, none⟩) 7 true).result
      = Except.ok (normalizeSignIn ⟨some "T1", none, none, some 3600, none⟩ 7)
    ∧ (normalizeSignIn ⟨some "T1", none, none, some 3600, none⟩ 7).access_token
      = some "T1" :=
  ⟨((C6_signin_normalization none FileState.absent 200 "OK" ""
      ⟨some "T1", none, none, some 3600, none⟩ 7 true).2.1 (by decide)).1,
   (C6_signin_normalization none FileState.absent 200 "OK" ""
      ⟨some "T1", none, none, some 3600, none⟩ 7 true).2.2.1 "T1" rfl (by decide)⟩

/-- Claim C8: persistence is best-effort in both directions.  For each
acquisition operation (code exchange, refresh, sign-in) a failing file write
does not abort the operation: it still succeeds and installs the new
in-memory credential, with the file left as it was.  And construction from a
corrupt, unreadable or absent token file yields no live credential rather
than a failure — `loadTokenFrom` is a total function. -/
theorem C8_best_effort_persistence :
    (∀ (st : Option TokenResponse) (file : FileState) (status : Int)
        (stx : String) (body : TokenResponse) (now : Int),
      respOk status = true →
        exchangeCodeForTokenOp st file (FetchResult.resp status stx body) now false
          = ⟨Except.ok (stampIssuedAt body now), some (stampIssuedAt body now),
              file, 1⟩)
    ∧ (∀ (st : Option TokenResponse) (file : FileState) (r : String)
        (status : Int) (stx : String) (body : TokenResponse) (now : Int),
      respOk status = true → r ≠ "" →
        refreshTokenOp st file (some r) (FetchResult.resp status stx body) now false
          = ⟨Except.ok (stampIssuedAt body now), some (stampIssuedAt body now),
              file, 1⟩)
    ∧ (∀ (st : Option TokenResponse) (file : FileState) (status : Int)
        (stx btxt : String) (body : VendorSignInResponse) (now : Int),
      respOk status = true →
        signInOp st file (SignInFetch.resp status stx btxt body) now false
          = ⟨Except.ok (normalizeSignIn body now), some (normalizeSignIn body now),
              file, 0⟩)
    ∧ loadTokenFrom FileState.corrupt = none
    ∧ loadTokenFrom FileState.unreadable = none
    ∧ loadTokenFrom FileState.absent = none := by
  refine ⟨?_, ?_, ?_, rfl, rfl, rfl⟩
  · intro st file status stx body now h
    simp [exchangeCodeForTokenOp, h, saveTokenOp]
  · intro st file r status stx body now h hr0
    simp [refreshTokenOp, jsStrTruthy, hr0, h, saveTokenOp]
  · intro st file status stx btxt body now h
    simp [signInOp, h, saveTokenOp, stampIssuedAt_normalizeSignIn]

/-- Claim C8, witness: a successful exchange whose file write fails still
returns and installs the stamped credential, with the file still absent. -/
theorem C8_witness :
    exchangeCodeForTokenOp none FileState.absent
        (FetchResult.resp 200 "OK"
          ⟨some "T", "Bearer", some 3600, none, none, none, none, none⟩) 42 false
      = ⟨Except.ok (stampIssuedAt
            ⟨some "T", "Bearer", some 3600, none, none, none, none, none⟩ 42),
          some (stampIssuedAt
            ⟨some "T", "Bearer", some 3600, none, none, none, none, none⟩ 42),
          FileState.absent, 1⟩ :=
  C8_best_effort_persistence.1 none FileState.absent 200 "OK"
    ⟨some "T", "Bearer", some 3600, none, none, none, none, none⟩ 42 (by decide)

/-- Claim C9: persisting the live credential and reloading it (a process
restart) yields exactly the in-memory credential the original process held
after the save, so a token read immediately after reload — any clock, any
token-endpoint behavior, any file state, any write outcome — returns the
same result, the same refresh decision (token-endpoint call count) and the
same resulting state as the same read in the original process. -/
theorem C9_persist_reload_roundtrip (t : TokenResponse) (file : FileState)
    (now : Int) :
    loadTokenFrom (saveTokenOp (some t) file now true).2
      = (saveTokenOp (some t) file now true).1
    ∧ ∀ (f2 : FileState) (fetch : FetchResult) (clock : Int) (w : Bool),
        getAccessTokenOp (loadTokenFrom (saveTokenOp (some t) file now true).2)
            f2 fetch clock w
          = getAccessTokenOp (saveTokenOp (some t) file now true).1
            f2 fetch clock w := by
  have h : loadTokenFrom (saveTokenOp (some t) file now true).2
      = (saveTokenOp (some t) file now true).1 := by
    simp [saveTokenOp, loadTokenFrom]
  exact ⟨h, fun f2 fetch clock w => by rw [h]⟩
